import Mathlib

/-
Verification of the LectureLama study-assistant app (src/app.py).

The app is a single Streamlit script.  Its state lives in
`st.session_state` with three fields: `logged_in` (Bool), `username`
(String) and `chat_history` (a list of (role, text) pairs).  Each user
interaction triggers one run of the script; we embed each interaction as
a step function on that state.  Uncaught Python exceptions abort the run
without mutating the state further; we record them in an `uncaught`
field of the run result.  Messages shown through st.error / st.warning
are recorded in a `msgs` list, and every request issued to the external
generative model (`model.generate_content`) is recorded in `calls`.

The external interaction in the ask handler has three outcomes, because
`response.text` is an attribute access that itself can raise (the
google.generativeai accessor raises ValueError on a blocked or partless
response), and it is evaluated only at line 161, after the User turn
has already been appended at line 160: the call itself can raise, the
call can return with readable text, or the call can return but reading
the text raises — the last path leaves a lone User turn in the chat
history.
-/

namespace LectureLama

/-- Abstract content of a single PDF page (opaque pixel source). -/
structure PdfPage where
  content : Nat
deriving DecidableEq, Repr

/-- Abstract decoded raster image, as produced by PIL.Image.open. -/
structure RawImage where
  data : Nat
deriving DecidableEq, Repr

/-- A parsed PDF document: an ordered list of pages (fitz document). -/
structure PdfDoc where
  pages : List PdfPage
deriving DecidableEq, Repr

/-- An element of `images_to_process`: either one PDF page rendered at a
given DPI (app.py line 112, `page.get_pixmap(dpi=150)`) or a directly
uploaded image (line 124, `Image.open(uploaded_file)`). -/
inductive PageImage where
  | fromPdf (page : PdfPage) (dpi : Nat)
  | fromUpload (img : RawImage)
deriving DecidableEq, Repr

/-- The MIME types accepted by the uploader (app.py line 94). -/
inductive Mime where
  | jpg
  | jpeg
  | png
  | pdf
deriving DecidableEq, Repr

/-- What the uploaded bytes actually decode to: a valid PDF, a valid
image, or garbage that neither fitz nor PIL can parse. -/
inductive FileContent where
  | pdfData (doc : PdfDoc)
  | imageData (img : RawImage)
  | invalid
deriving DecidableEq, Repr

/-- An uploaded file: the declared MIME type plus the actual content of
its bytes. -/
structure UploadedFile where
  mime : Mime
  content : FileContent
deriving DecidableEq, Repr

/-- The persistent session state (`st.session_state`, app.py lines
26-30 and 55-56). -/
structure SessionState where
  logged_in : Bool
  username : String
  chat_history : List (String × String)
deriving DecidableEq, Repr

/-- Initial session state (app.py lines 26-30). -/
def initState : SessionState :=
  { logged_in := false, username := "", chat_history := [] }

/-- User-visible error and warning messages issued by the script. -/
inductive Msg where
  | loginValidationError
  | warnUploadFirst
  | warnAskQuestion
  | generationError (message : String)
deriving DecidableEq, Repr

/-- Uncaught Python exceptions that abort a script run. -/
inductive RunError where
  | fitzOpenError
  | pilOpenError
  | indexError
deriving DecidableEq, Repr

/-- An error raised by the external generative-model interaction. -/
structure GenError where
  message : String
deriving DecidableEq, Repr

/-- Outcome of the external interaction in one ask action (app.py lines
157 and 161).  `callError`: `model.generate_content` itself raises.
`ok`: the call returns and `response.text` yields the answer.
`textError`: the call returns, but the `response.text` accessor raises
(as it does on a blocked or partless response). -/
inductive AskOracle where
  | callError (e : GenError)
  | ok (answer : String)
  | textError (e : GenError)
deriving DecidableEq, Repr

/-- One element of the `content_list` sent to the model (app.py line
155): the prompt string or a page image. -/
inductive ContentPart where
  | text (s : String)
  | image (p : PageImage)
deriving DecidableEq, Repr

/-- The 24-space indentation inside the triple-quoted prompt f-string. -/
def indent : String := "                        "

/-- The fixed prompt text before the interpolated question (app.py
lines 143-150). -/
def promptPre : String :=
  "\n" ++ indent ++ "You are LectureLama, an expert university tutor.\n"
    ++ indent ++ "The user has provided one or more images (which could be pages from a PDF) and a question.\n"
    ++ indent ++ "Analyze all images to answer the question.\n"
    ++ indent ++ "If it's handwritten, do your best to read it.\n"
    ++ indent ++ "Explain concepts simply and clearly.\n"
    ++ indent ++ "\n"
    ++ indent ++ "User Question: "

/-- The fixed prompt text after the interpolated question (app.py line
151: newline plus indentation before the closing quotes). -/
def promptPost : String := "\n" ++ indent

/-- The full prompt f-string with the question interpolated (app.py
lines 143-151). -/
def buildPrompt (user_question : String) : String :=
  promptPre ++ user_question ++ promptPost

/-- The `content_list` sent to `generate_content` (app.py line 155):
the prompt first, then every page image in order. -/
def content_list (user_question : String) (images_to_process : List PageImage) :
    List ContentPart :=
  ContentPart.text (buildPrompt user_question) :: images_to_process.map ContentPart.image

/-- The PDF page loop (app.py lines 109-115): for each page in order,
render it at 150 DPI and append to `images_to_process`. -/
def extract_pdf_pages (doc : PdfDoc) : List PageImage :=
  doc.pages.map (fun page => PageImage.fromPdf page 150)

/-- The upload-processing block (app.py lines 100-128), producing
`images_to_process`.  For a PDF it opens the stream with fitz (raising
if the bytes are not a valid PDF), renders every page, then previews
`images_to_process[0]` (line 120) which raises IndexError when the PDF
has zero pages.  For a declared image it opens the bytes with PIL
(raising if they are not a valid image).  No try/except surrounds this
block, so every raise escapes the handler uncaught. -/
def processUpload : Option UploadedFile → Except RunError (List PageImage)
  | none => Except.ok []
  | some f =>
    if f.mime = Mime.pdf then
      match f.content with
      | FileContent.pdfData doc =>
        let images_to_process := extract_pdf_pages doc
        if images_to_process.isEmpty then Except.error RunError.indexError
        else Except.ok images_to_process
      | _ => Except.error RunError.fitzOpenError
    else
      match f.content with
      | FileContent.imageData img => Except.ok [PageImage.fromUpload img]
      | _ => Except.error RunError.pilOpenError

/-- Result of the ask-button handler. -/
structure AskResult where
  state : SessionState
  msgs : List Msg
  calls : List (List ContentPart)
deriving DecidableEq, Repr

/-- The ask-button handler (app.py lines 132-165).  Empty
`images_to_process` or empty `user_question` warn and stop before any
model call (Python truthiness of lists and strings).  Otherwise one
request is built and `generate_content` is invoked once, inside a
try/except that catches every exception and shows it with st.error.
If the call itself raises nothing has been appended and the chat
history is untouched.  If the call returns, line 160 appends the User
turn, and only then does line 161 evaluate `response.text`; when that
accessor raises, the except block runs with the User turn already
appended, leaving a lone unpaired User turn in the chat history.  The
`oracle` argument stands for the outcome of the one external
interaction. -/
def askClick (s : SessionState) (images_to_process : List PageImage)
    (user_question : String) (oracle : AskOracle) : AskResult :=
  if images_to_process.isEmpty then
    { state := s, msgs := [Msg.warnUploadFirst], calls := [] }
  else if user_question.isEmpty then
    { state := s, msgs := [Msg.warnAskQuestion], calls := [] }
  else
    let request := content_list user_question images_to_process
    match oracle with
    | AskOracle.callError e =>
      { state := s, msgs := [Msg.generationError e.message], calls := [request] }
    | AskOracle.ok answer =>
      { state := { s with chat_history :=
          s.chat_history ++ [("You (Material)", user_question), ("Lama 🦙", answer)] },
        msgs := [], calls := [request] }
    | AskOracle.textError e =>
      { state := { s with chat_history :=
          s.chat_history ++ [("You (Material)", user_question)] },
        msgs := [Msg.generationError e.message], calls := [request] }

/-- The sign-in form handler (app.py lines 52-59): any pair of
non-empty credentials is accepted (Python truthiness of strings);
otherwise an inline validation error is shown and nothing changes. -/
def loginSubmit (s : SessionState) (username password : String) :
    SessionState × List Msg :=
  if username ≠ "" ∧ password ≠ "" then
    ({ s with logged_in := true, username := username }, [])
  else
    (s, [Msg.loginValidationError])

/-- One user interaction with the app. -/
inductive Event where
  | login (username password : String)
  | clearChat
  | logout
  | uploadOnly (upload : Option UploadedFile)
  | ask (upload : Option UploadedFile) (user_question : String)
      (oracle : AskOracle)

/-- Outcome of one script run triggered by an event. -/
structure RunResult where
  state : SessionState
  msgs : List Msg
  calls : List (List ContentPart)
  uncaught : Option RunError
deriving Repr

/-- One script run (app.py lines 182-187 route on `logged_in`; the
login form is only shown while signed out, and the main-app controls
only while signed in, so events on the hidden page leave the state
unchanged).  `clearChat` and `logout` embed the sidebar buttons (lines
70-79); `uploadOnly` is a rerun with a file present but no ask click;
`ask` processes the upload (lines 100-128) and then the ask button
(lines 132-165).  An upload decode failure or the zero-page preview
IndexError aborts the run before the button handler, leaving the
session state as it was. -/
def step (s : SessionState) : Event → RunResult
  | Event.login u p =>
    if s.logged_in then { state := s, msgs := [], calls := [], uncaught := none }
    else
      let r := loginSubmit s u p
      { state := r.1, msgs := r.2, calls := [], uncaught := none }
  | Event.clearChat =>
    if s.logged_in then
      { state := { s with chat_history := [] }, msgs := [], calls := [], uncaught := none }
    else { state := s, msgs := [], calls := [], uncaught := none }
  | Event.logout =>
    if s.logged_in then
      { state := { logged_in := false, username := "", chat_history := [] },
        msgs := [], calls := [], uncaught := none }
    else { state := s, msgs := [], calls := [], uncaught := none }
  | Event.uploadOnly up =>
    if s.logged_in then
      match processUpload up with
      | Except.ok _ => { state := s, msgs := [], calls := [], uncaught := none }
      | Except.error e => { state := s, msgs := [], calls := [], uncaught := some e }
    else { state := s, msgs := [], calls := [], uncaught := none }
  | Event.ask up q oracle =>
    if s.logged_in then
      match processUpload up with
      | Except.ok imgs =>
        let r := askClick s imgs q oracle
        { state := r.state, msgs := r.msgs, calls := r.calls, uncaught := none }
      | Except.error e => { state := s, msgs := [], calls := [], uncaught := some e }
    else { state := s, msgs := [], calls := [], uncaught := none }

/-- States reachable from the initial session state by any sequence of
events. -/
inductive Reachable : SessionState → Prop
  | init : Reachable initState
  | next (s : SessionState) (e : Event) : Reachable s → Reachable (step s e).state

/-- Whether the uploaded bytes parse as the declared kind. -/
def decodes (f : UploadedFile) : Bool :=
  if f.mime = Mime.pdf then
    match f.content with
    | FileContent.pdfData _ => true
    | _ => false
  else
    match f.content with
    | FileContent.imageData _ => true
    | _ => false

/-- The chat history consists of consecutive (User, Tutor) pairs with
the roles used by the code — the strict-pairing property. -/
def isPaired : List (String × String) → Bool
  | [] => true
  | (r1, _) :: (r2, _) :: rest =>
    if r1 = "You (Material)" ∧ r2 = "Lama 🦙" then isPaired rest else false
  | [_] => false

/-- Scan of the chat history tracking whether the previous turn was a
User turn: every turn is a User or Tutor turn, and a Tutor turn may
appear only immediately after a User turn. -/
def chatFrom (prevWasUser : Bool) : List (String × String) → Bool
  | [] => true
  | (r, _) :: rest =>
    if r = "You (Material)" then chatFrom true rest
    else if r = "Lama 🦙" then prevWasUser && chatFrom false rest
    else false

/-- The chat-history shape the code actually guarantees: only User and
Tutor turns, a Tutor turn always immediately preceded by a User turn
(so the first turn, if any, is a User turn).  Equivalently the history
is a concatenation of [User, Tutor] pairs and lone User turns. -/
def wellFormedChat (l : List (String × String)) : Bool := chatFrom false l

/-- A signed-in session used as a concrete evaluation point. -/
def signedInState : SessionState :=
  { logged_in := true, username := "alice", chat_history := [] }

/-- A syntactically valid PDF upload whose document has zero pages. -/
def zeroPagePdfUpload : UploadedFile :=
  { mime := Mime.pdf, content := FileContent.pdfData { pages := [] } }

/-- An upload declared as PDF whose bytes fitz cannot parse. -/
def badPdfUpload : UploadedFile :=
  { mime := Mime.pdf, content := FileContent.invalid }

/-- A one-page image upload for concrete evaluation. -/
def samplePage : PageImage := PageImage.fromUpload { data := 0 }

/-- A two-page PDF document for concrete evaluation. -/
def twoPageDoc : PdfDoc := { pages := [{ content := 0 }, { content := 1 }] }

/-- A valid single-image upload for concrete evaluation. -/
def goodImageUpload : UploadedFile :=
  { mime := Mime.png, content := FileContent.imageData { data := 0 } }

/-- The state left behind when a signed-in user asks a question and the
model call returns a response whose text accessor raises: the User turn
of the pair is appended but no Tutor turn follows. -/
def lonePairState : SessionState :=
  { logged_in := true, username := "alice",
    chat_history := [("You (Material)", "Q")] }

/- Helper lemmas -/

theorem string_isEmpty_false (q : String) (hq : q ≠ "") : q.isEmpty = false := by
  cases h : q.isEmpty with
  | false => rfl
  | true => exact absurd ((String.isEmpty_iff q).mp h) hq

theorem list_isEmpty_false {α : Type} (l : List α) (h : l ≠ []) : l.isEmpty = false := by
  cases l with
  | nil => exact absurd rfl h
  | cons a t => rfl

theorem chatFrom_append_pair (q a : String) :
    ∀ (b : Bool) (l : List (String × String)), chatFrom b l = true →
      chatFrom b (l ++ [("You (Material)", q), ("Lama 🦙", a)]) = true
  | b, [], _ => by simp [chatFrom]
  | b, (r, t) :: rest, h => by
    simp only [chatFrom, List.cons_append] at h ⊢
    by_cases hr : r = "You (Material)"
    · rw [if_pos hr] at h ⊢
      exact chatFrom_append_pair q a true rest h
    · rw [if_neg hr] at h ⊢
      by_cases hl : r = "Lama 🦙"
      · rw [if_pos hl] at h ⊢
        simp only [Bool.and_eq_true] at h ⊢
        exact ⟨h.1, chatFrom_append_pair q a false rest h.2⟩
      · exact absurd h (by simp [if_neg hl])

theorem chatFrom_append_user (q : String) :
    ∀ (b : Bool) (l : List (String × String)), chatFrom b l = true →
      chatFrom b (l ++ [("You (Material)", q)]) = true
  | b, [], _ => by simp [chatFrom]
  | b, (r, t) :: rest, h => by
    simp only [chatFrom, List.cons_append] at h ⊢
    by_cases hr : r = "You (Material)"
    · rw [if_pos hr] at h ⊢
      exact chatFrom_append_user q true rest h
    · rw [if_neg hr] at h ⊢
      by_cases hl : r = "Lama 🦙"
      · rw [if_pos hl] at h ⊢
        simp only [Bool.and_eq_true] at h ⊢
        exact ⟨h.1, chatFrom_append_user q false rest h.2⟩
      · exact absurd h (by simp [if_neg hl])

/-- The state invariant: the chat history is well formed (every Tutor
turn immediately follows a User turn), and it is empty whenever the
user is signed out. -/
def Inv (s : SessionState) : Prop :=
  wellFormedChat s.chat_history = true ∧ (s.logged_in = false → s.chat_history = [])

theorem inv_init : Inv initState := ⟨rfl, fun _ => rfl⟩

theorem inv_step (s : SessionState) (e : Event) (h : Inv s) : Inv (step s e).state := by
  obtain ⟨hp, he⟩ := h
  cases e with
  | login u p =>
    by_cases hl : s.logged_in
    · simpa [step, hl] using ⟨hp, he⟩
    · simp only [step, hl, if_false, loginSubmit]
      by_cases hc : u ≠ "" ∧ p ≠ ""
      · exact ⟨by simpa [hc] using hp, by simp [hc]⟩
      · exact ⟨by simpa [hc] using hp, by simpa [hc] using he⟩
  | clearChat =>
    by_cases hl : s.logged_in
    · exact ⟨by simp [step, hl, wellFormedChat, chatFrom], by simp [step, hl]⟩
    · simpa [step, hl] using ⟨hp, he⟩
  | logout =>
    by_cases hl : s.logged_in
    · exact ⟨by simp [step, hl, wellFormedChat, chatFrom], by simp [step, hl]⟩
    · simpa [step, hl] using ⟨hp, he⟩
  | uploadOnly up =>
    by_cases hl : s.logged_in
    · cases hu : processUpload up with
      | ok imgs => simpa [step, hl, hu] using ⟨hp, he⟩
      | error e => simpa [step, hl, hu] using ⟨hp, he⟩
    · simpa [step, hl] using ⟨hp, he⟩
  | ask up q oracle =>
    by_cases hl : s.logged_in
    · cases hu : processUpload up with
      | ok imgs =>
        simp only [step, hl, if_true, hu, askClick]
        by_cases hi : imgs.isEmpty
        · simpa [hi] using ⟨hp, he⟩
        · by_cases hq : q.isEmpty
          · simpa [hi, hq] using ⟨hp, he⟩
          · cases oracle with
            | callError err => simpa [hi, hq] using ⟨hp, he⟩
            | ok answer =>
              refine ⟨?_, ?_⟩
              · simpa [hi, hq, wellFormedChat] using
                  chatFrom_append_pair q answer false s.chat_history hp
              · simp [hi, hq, hl]
            | textError err =>
              refine ⟨?_, ?_⟩
              · simpa [hi, hq, wellFormedChat] using
                  chatFrom_append_user q false s.chat_history hp
              · simp [hi, hq, hl]
      | error e => simpa [step, hl, hu] using ⟨hp, he⟩
    · simpa [step, hl] using ⟨hp, he⟩

theorem reachable_inv (s : SessionState) (h : Reachable s) : Inv s := by
  induction h with
  | init => exact inv_init
  | next s e _ ih => exact inv_step s e ih

/- Claim theorems -/

/-- C1: the claim says a zero-page PDF upload yields an empty page
sequence without failing.  The extraction loop does produce the empty
sequence, but the preview line `st.image(images_to_process[0], ...)`
(app.py line 120) runs unconditionally in the PDF branch and raises
IndexError on the empty list, so the upload run aborts with an uncaught
error instead of succeeding. -/
theorem c1_zero_page_pdf_raises :
    extract_pdf_pages { pages := [] } = [] ∧
    (step signedInState (Event.uploadOnly (some zeroPagePdfUpload))).uncaught
      = some RunError.indexError := ⟨rfl, rfl⟩

/-- C2 counterexample: a declared-PDF upload with unparseable bytes is
not caught and reported inline — the run ends with an uncaught
exception and displays no error message of the app's own. -/
theorem c2_counterexample :
    (step signedInState (Event.uploadOnly (some badPdfUpload))).uncaught
        = some RunError.fitzOpenError ∧
    (step signedInState (Event.uploadOnly (some badPdfUpload))).msgs = [] :=
  ⟨rfl, rfl⟩

/-- C2 (amended): for every upload whose bytes do not parse as the
declared kind, no pages are produced, no model call is made, and the
session state (transcript included) is unchanged — but the decode
failure is not caught by the app code: the exception escapes the upload
block uncaught instead of being reported inline. -/
theorem c2_decode_failure_uncaught (s : SessionState) (f : UploadedFile)
    (q : String) (oracle : AskOracle)
    (hl : s.logged_in = true) (hf : decodes f = false) :
    ((step s (Event.ask (some f) q oracle)).uncaught = some RunError.fitzOpenError ∨
      (step s (Event.ask (some f) q oracle)).uncaught = some RunError.pilOpenError) ∧
    (step s (Event.ask (some f) q oracle)).state = s ∧
    (step s (Event.ask (some f) q oracle)).calls = [] ∧
    (step s (Event.ask (some f) q oracle)).msgs = [] := by
  obtain ⟨m, c⟩ := f
  by_cases hm : m = Mime.pdf
  · cases c with
    | pdfData doc => simp [decodes, hm] at hf
    | imageData img =>
      subst hm
      exact ⟨Or.inl (by simp [step, hl, processUpload]), by simp [step, hl, processUpload]⟩
    | invalid =>
      subst hm
      exact ⟨Or.inl (by simp [step, hl, processUpload]), by simp [step, hl, processUpload]⟩
  · cases c with
    | pdfData doc =>
      exact ⟨Or.inr (by simp [step, hl, processUpload, hm]),
        by simp [step, hl, processUpload, hm]⟩
    | imageData img => simp [decodes, hm] at hf
    | invalid =>
      exact ⟨Or.inr (by simp [step, hl, processUpload, hm]),
        by simp [step, hl, processUpload, hm]⟩

/-- C2 witness: concrete instantiation of the amended claim. -/
theorem c2_decode_failure_uncaught_witness :
    signedInState.logged_in = true ∧ decodes badPdfUpload = false ∧
    (((step signedInState (Event.ask (some badPdfUpload) "Q" (AskOracle.ok "A"))).uncaught
          = some RunError.fitzOpenError ∨
        (step signedInState (Event.ask (some badPdfUpload) "Q" (AskOracle.ok "A"))).uncaught
          = some RunError.pilOpenError) ∧
      (step signedInState (Event.ask (some badPdfUpload) "Q" (AskOracle.ok "A"))).state
        = signedInState ∧
      (step signedInState (Event.ask (some badPdfUpload) "Q" (AskOracle.ok "A"))).calls = [] ∧
      (step signedInState (Event.ask (some badPdfUpload) "Q" (AskOracle.ok "A"))).msgs = []) :=
  ⟨rfl, rfl, c2_decode_failure_uncaught signedInState badPdfUpload "Q" (AskOracle.ok "A") rfl rfl⟩

/-- C9: clearing the chat history while signed in empties the
transcript and changes nothing else: the signed-in flag and the stored
username are untouched. -/
theorem c9_clear_chat_frame (s : SessionState) (hl : s.logged_in = true) :
    (step s Event.clearChat).state.chat_history = [] ∧
    (step s Event.clearChat).state.logged_in = s.logged_in ∧
    (step s Event.clearChat).state.username = s.username := by
  refine ⟨?_, ?_, ?_⟩ <;> simp [step, hl]

/-- C9 witness: concrete instantiation at a signed-in state. -/
theorem c9_clear_chat_frame_witness :
    signedInState.logged_in = true ∧
    ((step signedInState Event.clearChat).state.chat_history = [] ∧
      (step signedInState Event.clearChat).state.logged_in = signedInState.logged_in ∧
      (step signedInState Event.clearChat).state.username = signedInState.username) :=
  ⟨rfl, c9_clear_chat_frame signedInState rfl⟩

theorem lonePairState_reachable : Reachable lonePairState := by
  have h1 : Reachable (step initState (Event.login "alice" "pw")).state :=
    Reachable.next initState (Event.login "alice" "pw") Reachable.init
  have h2 : Reachable (step (step initState (Event.login "alice" "pw")).state
      (Event.ask (some goodImageUpload) "Q"
        (AskOracle.textError { message := "blocked" }))).state :=
    Reachable.next (step initState (Event.login "alice" "pw")).state
      (Event.ask (some goodImageUpload) "Q"
        (AskOracle.textError { message := "blocked" })) h1
  have he : (step (step initState (Event.login "alice" "pw")).state
      (Event.ask (some goodImageUpload) "Q"
        (AskOracle.textError { message := "blocked" }))).state = lonePairState := by
    decide
  rw [he] at h2
  exact h2

/-- C10 counterexample: strict pairing is not guaranteed by the code.
The state reached by signing in, uploading a valid image, and asking a
question whose model response raises on its text accessor has a
transcript of odd length consisting of a lone User turn: a reachable
state whose transcript is neither even-length nor a sequence of (User,
Tutor) pairs. -/
theorem c10_counterexample :
    Reachable lonePairState ∧
    isPaired lonePairState.chat_history = false ∧
    lonePairState.chat_history.length % 2 = 1 :=
  ⟨lonePairState_reachable, by decide, by decide⟩

/-- C10 (amended): in every reachable state the transcript consists
only of User and Tutor turns in which every Tutor turn immediately
follows a User turn (so the first turn, if any, is a User turn) — the
transcript is a concatenation of (User, Tutor) pairs and lone User
turns.  Strict pairing and even length are not guaranteed: a model
response whose text accessor raises leaves the already-appended User
turn without a Tutor turn, as the spec's own warning anticipates. -/
theorem c10_transcript_wellformed (s : SessionState) (h : Reachable s) :
    wellFormedChat s.chat_history = true :=
  (reachable_inv s h).1

/-- C10 witness: concrete instantiation at the reachable state holding
a lone User turn. -/
theorem c10_transcript_wellformed_witness :
    Reachable lonePairState ∧ wellFormedChat lonePairState.chat_history = true :=
  ⟨lonePairState_reachable, c10_transcript_wellformed lonePairState lonePairState_reachable⟩

/-- C6: from every reachable state, signing out and then successfully
signing in yields an empty transcript: no transcript content leaks from
one signed-in session into the next. -/
theorem c6_no_transcript_leakage (s : SessionState) (h : Reachable s)
    (u p : String) (hu : u ≠ "") (hp : p ≠ "") :
    (step (step s Event.logout).state (Event.login u p)).state.chat_history = [] ∧
    (step (step s Event.logout).state (Event.login u p)).state.logged_in = true := by
  have hout : (step s Event.logout).state.chat_history = [] ∧
      (step s Event.logout).state.logged_in = false := by
    by_cases hl : s.logged_in
    · simp [step, hl]
    · have := (reachable_inv s h).2 (by simpa using hl)
      simp [step, hl, this, hl]
  obtain ⟨hch, hlo⟩ := hout
  generalize hgen : (step s Event.logout).state = s1 at hch hlo ⊢
  constructor
  · simp [step, hlo, loginSubmit, hu, hp, hch]
  · simp [step, hlo, loginSubmit, hu, hp]

/-- C6 witness: concrete instantiation at the initial state. -/
theorem c6_no_transcript_leakage_witness :
    ("alice" : String) ≠ "" ∧ ("pw" : String) ≠ "" ∧
    ((step (step initState Event.logout).state (Event.login "alice" "pw")).state.chat_history
        = [] ∧
      (step (step initState Event.logout).state (Event.login "alice" "pw")).state.logged_in
        = true) :=
  ⟨by decide, by decide,
    c6_no_transcript_leakage initState Reachable.init "alice" "pw" (by decide) (by decide)⟩

/-- C3 counterexample: the original claim says a failed ask leaves the
transcript length unchanged and never writes a partial pair.  At a
concrete ask that fails because the returned response's text accessor
raises, the handler reports an error (the ask action failed) yet the
chat history has grown by a lone User turn: a partial pair was
written. -/
theorem c3_counterexample :
    (askClick signedInState [samplePage] "Q"
        (AskOracle.textError { message := "blocked" })).msgs
      = [Msg.generationError "blocked"] ∧
    (askClick signedInState [samplePage] "Q"
        (AskOracle.textError { message := "blocked" })).state.chat_history
      = [("You (Material)", "Q")] ∧
    (askClick signedInState [samplePage] "Q"
        (AskOracle.textError { message := "blocked" })).state.chat_history.length
      ≠ signedInState.chat_history.length :=
  ⟨rfl, rfl, by decide⟩

/-- C3 (amended): when the ask action succeeds the transcript grows by
exactly the pair (User question, Tutor answer) appended in order, with
the User turn's text equal to the literal question; when
`generate_content` itself raises the transcript is unchanged.  But when
the call returns and only reading `response.text` raises (app.py line
161, after the line-160 append), the already-appended User turn
remains: that failed ask grows the transcript by exactly one lone User
turn, so a partial pair can be written. -/
theorem c3_ask_pair_or_partial (s : SessionState) (imgs : List PageImage)
    (q : String) (oracle : AskOracle)
    (hi : imgs ≠ []) (hq : q ≠ "") :
    (∀ answer, oracle = AskOracle.ok answer →
      (askClick s imgs q oracle).state.chat_history
        = s.chat_history ++ [("You (Material)", q), ("Lama 🦙", answer)]) ∧
    (∀ e, oracle = AskOracle.callError e →
      (askClick s imgs q oracle).state = s) ∧
    (∀ e, oracle = AskOracle.textError e →
      (askClick s imgs q oracle).state.chat_history
        = s.chat_history ++ [("You (Material)", q)] ∧
      (askClick s imgs q oracle).msgs = [Msg.generationError e.message]) := by
  have hi' : imgs.isEmpty = false := list_isEmpty_false imgs hi
  have hq' : q.isEmpty = false := string_isEmpty_false q hq
  refine ⟨?_, ?_, ?_⟩
  · rintro answer rfl
    simp [askClick, hi', hq']
  · rintro e rfl
    simp [askClick, hi', hq']
  · rintro e rfl
    exact ⟨by simp [askClick, hi', hq'], by simp [askClick, hi', hq']⟩

/-- C3 witness: concrete instantiation of the amended claim. -/
theorem c3_ask_pair_or_partial_witness :
    ([samplePage] : List PageImage) ≠ [] ∧ ("Q" : String) ≠ "" ∧
    ((∀ answer, AskOracle.ok "A" = AskOracle.ok answer →
        (askClick signedInState [samplePage] "Q" (AskOracle.ok "A")).state.chat_history
          = signedInState.chat_history ++ [("You (Material)", "Q"), ("Lama 🦙", answer)]) ∧
      (∀ e, AskOracle.ok "A" = AskOracle.callError e →
        (askClick signedInState [samplePage] "Q" (AskOracle.ok "A")).state = signedInState) ∧
      (∀ e, AskOracle.ok "A" = AskOracle.textError e →
        (askClick signedInState [samplePage] "Q" (AskOracle.ok "A")).state.chat_history
          = signedInState.chat_history ++ [("You (Material)", "Q")] ∧
        (askClick signedInState [samplePage] "Q" (AskOracle.ok "A")).msgs
          = [Msg.generationError e.message])) :=
  ⟨by simp, by simp,
    c3_ask_pair_or_partial signedInState [samplePage] "Q" (AskOracle.ok "A")
      (by simp) (by simp)⟩

/-- C4: with an empty extracted page list or an empty question the ask
handler warns and stops: no model request is issued and the session
state is unchanged, so the call site is unreachable under those
inputs. -/
theorem c4_no_call_when_invalid (s : SessionState) (imgs : List PageImage)
    (q : String) (oracle : AskOracle)
    (h : imgs = [] ∨ q = "") :
    (askClick s imgs q oracle).calls = [] ∧
    (askClick s imgs q oracle).state = s ∧
    ((askClick s imgs q oracle).msgs = [Msg.warnUploadFirst] ∨
      (askClick s imgs q oracle).msgs = [Msg.warnAskQuestion]) := by
  rcases h with h | h
  · subst h
    exact ⟨rfl, rfl, Or.inl rfl⟩
  · subst h
    by_cases hi : imgs = []
    · subst hi
      exact ⟨rfl, rfl, Or.inl rfl⟩
    · have hi' : imgs.isEmpty = false := list_isEmpty_false imgs hi
      have hqe : ("" : String).isEmpty = true := rfl
      refine ⟨?_, ?_, Or.inr ?_⟩ <;> simp [askClick, hi', hqe]

/-- C4 witness: concrete instantiation with no pages. -/
theorem c4_no_call_when_invalid_witness :
    (([] : List PageImage) = [] ∨ ("Q" : String) = "") ∧
    ((askClick signedInState [] "Q" (AskOracle.ok "A")).calls = [] ∧
      (askClick signedInState [] "Q" (AskOracle.ok "A")).state = signedInState ∧
      ((askClick signedInState [] "Q" (AskOracle.ok "A")).msgs = [Msg.warnUploadFirst] ∨
        (askClick signedInState [] "Q" (AskOracle.ok "A")).msgs = [Msg.warnAskQuestion])) :=
  ⟨Or.inl rfl, c4_no_call_when_invalid signedInState [] "Q" (AskOracle.ok "A") (Or.inl rfl)⟩

/-- C5: from a signed-out state, signing in succeeds iff both the
username and the password are non-empty; on success the state becomes
signed in with the username stored and no other change, and on failure
the state is exactly unchanged and a validation error is reported. -/
theorem c5_sign_in_iff (s : SessionState) (u p : String)
    (hl : s.logged_in = false) :
    ((step s (Event.login u p)).state.logged_in = true ↔ u ≠ "" ∧ p ≠ "") ∧
    (u ≠ "" ∧ p ≠ "" →
      (step s (Event.login u p)).state = { s with logged_in := true, username := u } ∧
      (step s (Event.login u p)).msgs = []) ∧
    ((u = "" ∨ p = "") →
      (step s (Event.login u p)).state = s ∧
      (step s (Event.login u p)).msgs = [Msg.loginValidationError]) := by
  by_cases hc : u ≠ "" ∧ p ≠ ""
  · refine ⟨?_, fun _ => ⟨?_, ?_⟩, fun hcon => ?_⟩
    · simp [step, hl, loginSubmit, hc]
    · simp [step, hl, loginSubmit, hc]
    · simp [step, hl, loginSubmit, hc]
    · rcases hcon with h | h
      · exact absurd h hc.1
      · exact absurd h hc.2
  · refine ⟨?_, fun hcon => absurd hcon hc, fun _ => ⟨?_, ?_⟩⟩
    · simp [step, hl, loginSubmit, hc]
    · simp [step, hl, loginSubmit, hc]
    · simp [step, hl, loginSubmit, hc]

/-- C5 witness: concrete instantiation with non-empty credentials. -/
theorem c5_sign_in_iff_witness :
    initState.logged_in = false ∧
    (((step initState (Event.login "alice" "pw")).state.logged_in = true ↔
        ("alice" : String) ≠ "" ∧ ("pw" : String) ≠ "") ∧
      (("alice" : String) ≠ "" ∧ ("pw" : String) ≠ "" →
        (step initState (Event.login "alice" "pw")).state
          = { initState with logged_in := true, username := "alice" } ∧
        (step initState (Event.login "alice" "pw")).msgs = []) ∧
      ((("alice" : String) = "" ∨ ("pw" : String) = "") →
        (step initState (Event.login "alice" "pw")).state = initState ∧
        (step initState (Event.login "alice" "pw")).msgs = [Msg.loginValidationError])) :=
  ⟨rfl, c5_sign_in_iff initState "alice" "pw" rfl⟩

/-- C7: an N-page PDF is extracted to exactly N page images, the i-th
being page i rendered at 150 DPI, in page order; the upload block
returns exactly that sequence (for a non-empty PDF), and the ask
handler sends it to the model in the same order, after the prompt. -/
theorem c7_pdf_order_preserved (doc : PdfDoc) (s : SessionState)
    (q : String) (oracle : AskOracle)
    (hne : doc.pages ≠ []) (hq : q ≠ "") :
    (extract_pdf_pages doc).length = doc.pages.length ∧
    (∀ i : Nat, (extract_pdf_pages doc)[i]?
      = (doc.pages[i]?).map (fun page => PageImage.fromPdf page 150)) ∧
    processUpload (some { mime := Mime.pdf, content := FileContent.pdfData doc })
      = Except.ok (extract_pdf_pages doc) ∧
    (askClick s (extract_pdf_pages doc) q oracle).calls
      = [ContentPart.text (buildPrompt q) :: (extract_pdf_pages doc).map ContentPart.image] := by
  have hne' : (extract_pdf_pages doc).isEmpty = false :=
    list_isEmpty_false _ (by simpa [extract_pdf_pages] using hne)
  have hq' : q.isEmpty = false := string_isEmpty_false q hq
  refine ⟨?_, ?_, ?_, ?_⟩
  · simp [extract_pdf_pages]
  · intro i
    simp [extract_pdf_pages]
  · simp [processUpload, hne']
  · cases oracle with
    | callError e => simp [askClick, hne', hq', content_list]
    | ok answer => simp [askClick, hne', hq', content_list]
    | textError e => simp [askClick, hne', hq', content_list]

/-- C7 witness: concrete instantiation on a two-page PDF. -/
theorem c7_pdf_order_preserved_witness :
    twoPageDoc.pages ≠ [] ∧ ("Q" : String) ≠ "" ∧
    ((extract_pdf_pages twoPageDoc).length = twoPageDoc.pages.length ∧
      (∀ i : Nat, (extract_pdf_pages twoPageDoc)[i]?
        = (twoPageDoc.pages[i]?).map (fun page => PageImage.fromPdf page 150)) ∧
      processUpload (some { mime := Mime.pdf, content := FileContent.pdfData twoPageDoc })
        = Except.ok (extract_pdf_pages twoPageDoc) ∧
      (askClick signedInState (extract_pdf_pages twoPageDoc) "Q" (AskOracle.ok "A")).calls
        = [ContentPart.text (buildPrompt "Q")
            :: (extract_pdf_pages twoPageDoc).map ContentPart.image]) :=
  ⟨by simp [twoPageDoc], by simp,
    c7_pdf_order_preserved twoPageDoc signedInState "Q" (AskOracle.ok "A")
      (by simp [twoPageDoc]) (by simp)⟩

/-- C8: each ask action with non-empty pages and question issues
exactly one model request, consisting of the fixed preamble, then the
literal question, then the page images in the order received — in both
the success and the failure outcome of the external call. -/
theorem c8_single_request_shape (s : SessionState) (imgs : List PageImage)
    (q : String) (oracle : AskOracle)
    (hi : imgs ≠ []) (hq : q ≠ "") :
    (askClick s imgs q oracle).calls
      = [ContentPart.text (promptPre ++ q ++ promptPost) :: imgs.map ContentPart.image] ∧
    (askClick s imgs q oracle).calls.length = 1 := by
  have hi' : imgs.isEmpty = false := list_isEmpty_false imgs hi
  have hq' : q.isEmpty = false := string_isEmpty_false q hq
  cases oracle with
  | callError e =>
    exact ⟨by simp [askClick, hi', hq', content_list, buildPrompt], by simp [askClick, hi', hq']⟩
  | ok answer =>
    exact ⟨by simp [askClick, hi', hq', content_list, buildPrompt], by simp [askClick, hi', hq']⟩
  | textError e =>
    exact ⟨by simp [askClick, hi', hq', content_list, buildPrompt], by simp [askClick, hi', hq']⟩

/-- C8 witness: concrete instantiation on one page. -/
theorem c8_single_request_shape_witness :
    ([samplePage] : List PageImage) ≠ [] ∧ ("Q" : String) ≠ "" ∧
    ((askClick signedInState [samplePage] "Q" (AskOracle.callError ⟨"boom"⟩)).calls
        = [ContentPart.text (promptPre ++ "Q" ++ promptPost)
            :: ([samplePage] : List PageImage).map ContentPart.image] ∧
      (askClick signedInState [samplePage] "Q" (AskOracle.callError ⟨"boom"⟩)).calls.length = 1) :=
  ⟨by simp, by simp,
    c8_single_request_shape signedInState [samplePage] "Q" (AskOracle.callError ⟨"boom"⟩)
      (by simp) (by simp)⟩

end LectureLama
